import Mathlib

set_option maxRecDepth 10000

/-! Shallow embedding of the cache, page-classification, rendering and
page-range logic of src/pdf_mcp/server.py (PDF MCP server).  The
filesystem state relevant to one document is its cache directory: either
absent, or a list of (filename, file content) entries.  A POSIX stat of
the source document is modelled as a pair of integers (mtime, size);
the code only ever compares these values for exact equality, so nothing
is lost by taking them as integers. -/

/-- Decimal digit character, as produced by Python integer formatting. -/
def digitChar10 (d : Nat) : Char := Char.ofNat (48 + d)

/-- Little-endian decimal digits of n.  Structured on a fuel argument so
that the kernel can evaluate it; natDigitsRev instantiates fuel := n,
which is always sufficient. -/
def natDigitsRevCore : Nat → Nat → List Char
  | _, 0 => []
  | 0, _ + 1 => []
  | fuel + 1, n + 1 => digitChar10 ((n + 1) % 10) :: natDigitsRevCore fuel ((n + 1) / 10)

def natDigitsRev (n : Nat) : List Char := natDigitsRevCore n n

/-- Decimal rendering of a natural number: Python str(n) for n ≥ 0. -/
def natDecimal (n : Nat) : String :=
  if n = 0 then "0" else String.mk (natDigitsRev n).reverse

/-- Python format specifier 03d: zero-pad the decimal rendering of a
nonnegative integer to width at least 3. -/
def format03d (n : Nat) : String :=
  let s := natDecimal n
  if s.length < 3 then String.mk (List.replicate (3 - s.length) '0') ++ s else s

/-- Result of os.stat on the source document: modification time and byte
size.  server.py compares them only for exact equality (lines 94-97), so
both are modelled as integers. -/
structure Stat where
  mtime : Int
  size : Int
deriving DecidableEq

/-- Content of one file inside the cache directory.
  * metaJson: a .cache_meta.json whose UTF-8 text json.load parses to a
    dict; the pdf_mtime / pdf_size keys may be absent (dict.get then
    yields None, modelled as Option).  pdf_path and created_at are
    stored but never read back by the validator (server.py lines
    125-130).
  * jsonNonDict: valid UTF-8 text that json.load parses to a JSON value
    that is not an object (a list, number, string, ...): meta.get on it
    then raises AttributeError.
  * png: the bytes of the PNG produced by page.get_pixmap for the given
    0-indexed page at the given DPI (rasterization is deterministic, so
    the pair determines the bytes; pixel data itself is irrelevant to
    every claim).  A PNG file starts with byte 0x89, which is invalid
    UTF-8, so a text-mode read of such bytes raises UnicodeDecodeError.
  * garbage: valid UTF-8 text on which json.load raises JSONDecodeError.
  * invalidUtf8: bytes that are not valid UTF-8: the text-mode read
    inside json.load raises UnicodeDecodeError.
  * unreadable: a file whose open/read raises OSError. -/
inductive FileData where
  | metaJson (pdf_path : String) (pdf_mtime : Option Int) (pdf_size : Option Int) (created_at : String)
  | jsonNonDict
  | png (page_index : Nat) (dpi : Nat)
  | garbage
  | invalidUtf8
  | unreadable
deriving DecidableEq

/-- The cache directory of one document: none when the directory does not
exist on disk, otherwise the files inside it. -/
abbrev CacheDir := Option (List (String × FileData))

/-- _CACHE_META_FILE (server.py line 62). -/
def CACHE_META_FILE : String := ".cache_meta.json"

/-- Filename lookup inside a directory listing. -/
def lookupFile : List (String × FileData) → String → Option FileData
  | [], _ => none
  | (k, v) :: rest, name => if k = name then some v else lookupFile rest name

/-- Reading a file: none when the directory or the file does not exist. -/
def readFile (cache_dir : CacheDir) (name : String) : Option FileData :=
  match cache_dir with
  | none => none
  | some files => lookupFile files name

/-- Writing a file (create or overwrite).  In server.py every write
happens after the directory was created; the none branch is never
reached there and is defined only for totality. -/
def writeFile (cache_dir : CacheDir) (name : String) (d : FileData) : CacheDir :=
  match cache_dir with
  | none => some [(name, d)]
  | some files => some ((name, d) :: files.filter (fun kv => kv.1 != name))

/-- Python exceptions that escape _is_cache_valid: its except clause
(server.py line 100) catches only json.JSONDecodeError, KeyError and
OSError, so these two propagate to the caller uncaught. -/
inductive PyErr where
  | unicodeDecodeError
  | attributeError
deriving DecidableEq

/-- _is_cache_valid (server.py lines 65-102).  pdfStat is the result of
pdf_path.stat(): none when the stat raises OSError (source file gone),
which the except clause turns into an invalid verdict.  The except
clause catches only (json.JSONDecodeError, KeyError, OSError): a
metadata file of invalid UTF-8 bytes (including PNG bytes) makes the
text-mode read inside json.load raise UnicodeDecodeError, and a
parsable non-dict JSON value makes meta.get raise AttributeError; both
escape, so the function is modelled as returning an Except value whose
error side is the uncaught exception. -/
def is_cache_valid (pdfStat : Option Stat) (cache_dir : CacheDir) : Except PyErr Bool :=
  match readFile cache_dir CACHE_META_FILE with
  | none => Except.ok false
  | some (FileData.metaJson _ stored_mtime stored_size _) =>
    match pdfStat with
    | none => Except.ok false
    | some st =>
      if stored_mtime ≠ some st.mtime then Except.ok false
      else if stored_size ≠ some st.size then Except.ok false
      else Except.ok true
  | some FileData.jsonNonDict => Except.error PyErr.attributeError
  | some (FileData.png _ _) => Except.error PyErr.unicodeDecodeError
  | some FileData.garbage => Except.ok false
  | some FileData.invalidUtf8 => Except.error PyErr.unicodeDecodeError
  | some FileData.unreadable => Except.ok false

/-- _invalidate_cache (server.py lines 105-113): shutil.rmtree when the
directory exists. -/
def invalidate_cache (cache_dir : CacheDir) : CacheDir :=
  if cache_dir.isSome then none else cache_dir

/-- The metadata record _save_cache_meta writes: current stat of the
source, its absolute path, and the current timestamp. -/
def freshMeta (st : Stat) (abs_path now : String) : FileData :=
  FileData.metaJson abs_path (some st.mtime) (some st.size) now

/-- _save_cache_meta (server.py lines 116-134). -/
def save_cache_meta (st : Stat) (abs_path now : String) (cache_dir : CacheDir) : CacheDir :=
  writeFile cache_dir CACHE_META_FILE (freshMeta st abs_path now)

/-- _get_cache_dir (server.py lines 137-163) for a source document that
exists and whose stat is st for the duration of the call (the source
re-stats the file inside _is_cache_valid and _save_cache_meta; the
claims assume the stat does not change mid-call).  An exception
escaping _is_cache_valid propagates out before any deletion, creation
or metadata write has happened. -/
def get_cache_dir (st : Stat) (abs_path now : String) (cd0 : CacheDir) :
    Except PyErr CacheDir :=
  -- if cache_dir.exists(): if not _is_cache_valid(...): _invalidate_cache(...)
  let step1 : Except PyErr CacheDir :=
    match cd0 with
    | some files =>
      match is_cache_valid (some st) (some files) with
      | Except.error e => Except.error e
      | Except.ok true => Except.ok (some files)
      | Except.ok false => Except.ok (invalidate_cache (some files))
    | none => Except.ok none
  match step1 with
  | Except.error e => Except.error e
  | Except.ok cd1 =>
    -- cache_dir.mkdir(exist_ok=True)
    let cd2 := match cd1 with
      | none => some []
      | some files => some files
    -- if not meta_file.exists(): _save_cache_meta(...)
    match readFile cd2 CACHE_META_FILE with
    | none => Except.ok (save_cache_meta st abs_path now cd2)
    | some _ => Except.ok cd2

/-- What the Document Library (PyMuPDF) reports for one page: the lengths
of page.get_images() and page.get_drawings(), and page.get_text(). -/
structure PageInfo where
  imageCount : Nat
  drawingCount : Nat
  text : String
deriving DecidableEq

/-- One element of an operation's returned content list: TextContent, or
ImageContent carrying the bytes read back from the artifact file. -/
inductive Content where
  | text (s : String)
  | image (data : Option FileData)
deriving DecidableEq

/-- Python truthiness of an optional int argument: None and 0 are falsy. -/
def pyTruthyOpt (o : Option Int) : Bool :=
  match o with
  | none => false
  | some v => v != 0

/-- The page-range computation of read_pdf_text (server.py lines
343-349); the same six lines are repeated verbatim in read_pdf_all
(lines 448-454) and read_pdf_smart (lines 513-519). -/
def resolveRange (total_pages : Int) (start_page end_page : Option Int) : Int × Int :=
  -- start = (start_page - 1) if start_page else 0
  let start := if pyTruthyOpt start_page then start_page.getD 0 - 1 else 0
  -- end = end_page if end_page else total_pages
  let e := if pyTruthyOpt end_page then end_page.getD 0 else total_pages
  -- start = max(0, min(start, total_pages - 1))
  let start := max 0 (min start (total_pages - 1))
  -- end = max(start + 1, min(end, total_pages))
  let e := max (start + 1) (min e total_pages)
  (start, e)

/-- The range resolver exactly as claim C3 words it: start defaults to 1
when absent, end defaults to totalPages when absent, startIndex =
max(0, min(start-1, totalPages-1)), endIndexExclusive =
max(startIndex+1, min(end, totalPages)).  Stated from the claim, to be
compared with resolveRange, which is translated from the source. -/
def resolveRangeClaimed (totalPages : Int) (start_page end_page : Option Int) : Int × Int :=
  let startIndex := max 0 (min (start_page.getD 1 - 1) (totalPages - 1))
  (startIndex, max (startIndex + 1) (min (end_page.getD totalPages) totalPages))

/-- Python range(start, end) over the resolved page indices (start is
always ≥ 0 here, end may be ≤ start giving the empty range). -/
def pageRange (start e : Int) : List Nat :=
  List.range' start.toNat (e - start).toNat

/-- Artifact name in read_pdf_page (server.py line 400), from the
1-indexed page number. -/
def pageArtifactName (page_number : Nat) : String :=
  "page_" ++ format03d page_number ++ ".png"

/-- Artifact name in read_pdf_all (server.py line 468), from the
0-indexed loop variable. -/
def allArtifactName (page_num : Nat) : String :=
  "page_" ++ format03d (page_num + 1) ++ ".png"

/-- Artifact name in read_pdf_smart (server.py line 542), from the
0-indexed loop variable. -/
def smartArtifactName (page_num : Nat) : String :=
  "page_" ++ format03d (page_num + 1) ++ ".png"

/-- Artifact name in render_pdf_page (server.py line 603), from the
1-indexed page number and the DPI. -/
def renderArtifactName (page_number dpi : Nat) : String :=
  "page_" ++ format03d page_number ++ "_" ++ natDecimal dpi ++ "dpi.png"

/-- The metadata dictionary of an opened document, as doc.metadata
reports it (server.py lines 290-301 read these five keys). -/
structure PdfMeta where
  title : Option String
  author : Option String
  subject : Option String
  creator : Option String
  creationDate : Option String
deriving DecidableEq

/-- One summary line of read_pdf_info (server.py line 313). -/
def infoPageLine (k : Nat) (page : PageInfo) : String :=
  "  [" ++ natDecimal (k + 1) ++ "] 이미지: " ++ natDecimal page.imageCount ++
    "개, 드로잉: " ++ natDecimal page.drawingCount ++ "개 | " ++
    ((page.text.take 50).replace "\n" " ") ++ "..."

/-- Optional metadata line (server.py lines 292-301). -/
def infoMetaLine (label : String) (v : Option String) : String :=
  match v with
  | some s => if s ≠ "" then "   " ++ label ++ ": " ++ s ++ "\n" else ""
  | none => ""

/-- read_pdf_info (server.py lines 272-320).  The function never touches
the cache directory; the model threads the cache state through so that
this absence of effect is observable. -/
def read_pdf_info (doc : List PageInfo) (meta : PdfMeta) (name : String)
    (cd : CacheDir) : CacheDir × String :=
  let header := "📄 PDF: " ++ name ++ "\n   총 페이지 수: " ++ natDecimal doc.length ++ "\n"
  let metaLines := infoMetaLine "제목" meta.title ++ infoMetaLine "저자" meta.author ++
    infoMetaLine "주제" meta.subject ++ infoMetaLine "생성 프로그램" meta.creator ++
    infoMetaLine "생성일" meta.creationDate
  let preview := ((List.range (min doc.length 10)).map
    (fun k => infoPageLine k ((doc.get? k).getD ⟨0, 0, ""⟩))).foldl (fun a b => a ++ b ++ "\n") ""
  let tail := if doc.length > 10 then "  ... 외 " ++ natDecimal (doc.length - 10) ++ "페이지 더 있음\n" else ""
  (cd, header ++ metaLines ++ "\n📋 페이지 요약:\n" ++ preview ++ tail)

/-- One page block of read_pdf_text (server.py lines 357-364). -/
def textPageBlock (page_num : Nat) (page : PageInfo) : String :=
  "\n📖 페이지 " ++ natDecimal (page_num + 1) ++ "\n" ++
    (if page.text.trim ≠ "" then page.text.trim else "(텍스트 없음)") ++ "\n"

/-- read_pdf_text (server.py lines 323-368).  Pure text extraction: the
cache directory is never consulted or created; the model threads the
cache state through so that this absence of effect is observable.
Indices past the end of the document are unreachable for a non-empty
document (the resolved range is clamped inside it); the getD default
covers the match exhaustively. -/
def read_pdf_text (doc : List PageInfo) (name : String) (cd : CacheDir)
    (start_page end_page : Option Int) : CacheDir × String :=
  let (start, e) := resolveRange (doc.length : Int) start_page end_page
  let header := "📄 PDF: " ++ name ++ "\n   페이지 범위: " ++ natDecimal (start.toNat + 1) ++
    " ~ " ++ natDecimal e.toNat ++ "\n"
  let body := ((pageRange start e).map
    (fun k => textPageBlock k ((doc.get? k).getD ⟨0, 0, ""⟩))).foldl (fun a b => a ++ b) ""
  (cd, header ++ body)

/-- Error outcome of a tool call: the explicit ValueError raised by page
validation, or an uncaught exception propagating from the cache
validator through _get_cache_dir. -/
inductive OpError where
  | valueError (msg : String)
  | uncaught (e : PyErr)
deriving DecidableEq

/-- read_pdf_page (server.py lines 369-420): validate the 1-indexed page
number, resolve the cache directory, render the page at 150 DPI unless
the artifact already exists, then return the header and the image bytes
read back from the artifact.  An uncaught exception from the cache
resolution propagates with the filesystem state untouched. -/
def read_pdf_page (doc : List PageInfo) (st : Stat) (abs_path now : String)
    (cd : CacheDir) (page_number : Int) : CacheDir × Except OpError (List Content) :=
  if page_number < 1 ∨ page_number > (doc.length : Int) then
    (cd, Except.error (OpError.valueError ("페이지 번호 " ++ toString page_number ++
      "가 유효하지 않습니다. 유효 범위: 1 ~ " ++ natDecimal doc.length)))
  else
    match get_cache_dir st abs_path now cd with
    | Except.error e => (cd, Except.error (OpError.uncaught e))
    | Except.ok cd1 =>
      let filename := pageArtifactName page_number.toNat
      let cd2 := if readFile cd1 filename = none
        then writeFile cd1 filename (FileData.png (page_number.toNat - 1) 150)
        else cd1
      (cd2, Except.ok [Content.text ("📖 페이지 " ++ toString page_number ++ " / " ++
          natDecimal doc.length ++ "\n"),
        Content.image (readFile cd2 filename)])

/-- Loop state of read_pdf_all. -/
structure AllState where
  cd : CacheDir
  res : List Content
deriving DecidableEq

/-- Loop body of read_pdf_all (server.py lines 464-481).  The rendered
bytes depend only on the page and the fixed 150 DPI zoom. -/
def allStep (s : AllState) (page_num : Nat) : AllState :=
  let filename := allArtifactName page_num
  let cd := if readFile s.cd filename = none
    then writeFile s.cd filename (FileData.png page_num 150)
    else s.cd
  { cd := cd,
    res := s.res ++ [Content.text ("\n📖 페이지 " ++ natDecimal (page_num + 1) ++ "\n"),
      Content.image (readFile cd filename)] }

/-- read_pdf_all (server.py lines 423-485).  An uncaught exception from
the cache resolution propagates with the filesystem state untouched. -/
def read_pdf_all (doc : List PageInfo) (st : Stat) (abs_path now : String)
    (name : String) (cd : CacheDir) (start_page end_page : Option Int) :
    CacheDir × Except OpError (List Content) :=
  match get_cache_dir st abs_path now cd with
  | Except.error e => (cd, Except.error (OpError.uncaught e))
  | Except.ok cd1 =>
    let (start, e) := resolveRange (doc.length : Int) start_page end_page
    let range_text := if pyTruthyOpt start_page || pyTruthyOpt end_page
      then "페이지 " ++ natDecimal (start.toNat + 1) ++ "~" ++ natDecimal e.toNat
      else "전체 " ++ natDecimal doc.length ++ "페이지"
    let s0 : AllState := ⟨cd1, [Content.text ("📄 PDF: " ++ name ++ " (" ++ range_text ++ ")\n")]⟩
    let s := (pageRange start e).foldl allStep s0
    (s.cd, Except.ok s.res)

/-- The page classifier of smart mode (server.py lines 536-539): a page
is visual when the Document Library reports at least one embedded image
or at least one drawing. -/
def classifyVisual (page : PageInfo) : Bool :=
  decide (0 < page.imageCount) || decide (0 < page.drawingCount)

/-- Loop state of read_pdf_smart. -/
structure SmartState where
  cd : CacheDir
  res : List Content
  text_page_count : Nat
  image_page_count : Nat
deriving DecidableEq

/-- Header emitted before a visual page's image (server.py line 552). -/
def smartImageHeader (page_num : Nat) : Content :=
  Content.text ("\n📖 페이지 " ++ natDecimal (page_num + 1) ++ " 🖼️\n")

/-- Text item emitted for a text-only page (server.py lines 557-561). -/
def smartTextItem (page_num : Nat) (page : PageInfo) : Content :=
  Content.text ("\n📖 페이지 " ++ natDecimal (page_num + 1) ++ " 📝\n" ++
    (if page.text.trim ≠ "" then page.text.trim else "(텍스트 없음)") ++ "\n")

/-- Loop body of read_pdf_smart (server.py lines 532-561).  The none
branch of the page lookup is unreachable: the resolved range stays
inside a non-empty document. -/
def smartStep (doc : List PageInfo) (s : SmartState) (page_num : Nat) : SmartState :=
  match doc.get? page_num with
  | none => s
  | some page =>
    let has_images := decide (0 < page.imageCount)
    let has_drawings := decide (0 < page.drawingCount)
    if has_images || has_drawings then
      let filename := smartArtifactName page_num
      let cd := if readFile s.cd filename = none
        then writeFile s.cd filename (FileData.png page_num 150)
        else s.cd
      { cd := cd,
        res := s.res ++ [smartImageHeader page_num, Content.image (readFile cd filename)],
        text_page_count := s.text_page_count,
        image_page_count := s.image_page_count + 1 }
    else
      { s with
        res := s.res ++ [smartTextItem page_num page],
        text_page_count := s.text_page_count + 1 }

/-- read_pdf_smart (server.py lines 488-571).  An uncaught exception from
the cache resolution propagates with the filesystem state untouched. -/
def read_pdf_smart (doc : List PageInfo) (st : Stat) (abs_path now : String)
    (name : String) (cd : CacheDir) (start_page end_page : Option Int) :
    CacheDir × Except OpError (List Content) :=
  match get_cache_dir st abs_path now cd with
  | Except.error e => (cd, Except.error (OpError.uncaught e))
  | Except.ok cd1 =>
    let (start, e) := resolveRange (doc.length : Int) start_page end_page
    let range_text := if pyTruthyOpt start_page || pyTruthyOpt end_page
      then "페이지 " ++ natDecimal (start.toNat + 1) ++ "~" ++ natDecimal e.toNat
      else "전체 " ++ natDecimal doc.length ++ "페이지"
    let s0 : SmartState := ⟨cd1,
      [Content.text ("📄 PDF: " ++ name ++ " (" ++ range_text ++ ") [스마트 모드]\n")], 0, 0⟩
    let s := (pageRange start e).foldl (smartStep doc) s0
    (s.cd, Except.ok (s.res ++ [Content.text ("\n📊 처리 결과: 텍스트 " ++
      natDecimal s.text_page_count ++ "페이지, 이미지 " ++
      natDecimal s.image_page_count ++ "페이지")]))

/-- Dimensions reported by render_pdf_page: the fresh branch reports the
pixmap's pixel dimensions (a function of the page and the DPI, elided),
the cache-hit branch reports the placeholder strings (server.py lines
612-616). -/
inductive RenderDims where
  | fresh (page_index : Nat) (dpi : Nat)
  | cacheHit
deriving DecidableEq

/-- The render-or-reuse core of render_pdf_page (server.py lines
602-616): the artifact name is computed from (1-indexed page, dpi); the
page is rasterized and saved only when no file of that name exists. -/
def renderCore (cd : CacheDir) (page_number : Nat) (dpi : Nat) :
    CacheDir × String × RenderDims :=
  let filename := renderArtifactName page_number dpi
  if readFile cd filename = none then
    (writeFile cd filename (FileData.png (page_number - 1) dpi), filename,
      RenderDims.fresh (page_number - 1) dpi)
  else
    (cd, filename, RenderDims.cacheHit)

/-- render_pdf_page (server.py lines 573-629): validate the 1-indexed
page number, resolve the cache directory, then render or reuse; the
returned string reports the artifact path.  An uncaught exception from
the cache resolution propagates with the filesystem state untouched. -/
def render_pdf_page (doc : List PageInfo) (st : Stat) (abs_path now : String)
    (cd : CacheDir) (page_number : Int) (dpi : Nat) : CacheDir × Except OpError String :=
  if page_number < 1 ∨ page_number > (doc.length : Int) then
    (cd, Except.error (OpError.valueError ("페이지 번호 " ++ toString page_number ++
      "가 유효하지 않습니다. 유효 범위: 1 ~ " ++ natDecimal doc.length)))
  else
    match get_cache_dir st abs_path now cd with
    | Except.error e => (cd, Except.error (OpError.uncaught e))
    | Except.ok cd1 =>
      let r := renderCore cd1 page_number.toNat dpi
      (r.1, Except.ok ("🖼️ 페이지 " ++ toString page_number ++ " 렌더링 완료\n   해상도: " ++
        natDecimal dpi ++ " DPI\n📁 이미지 경로: " ++ r.2.1))

/-- Outcome of clear_pdf_cache (server.py lines 740-798), by branch.  The
preview and deleted outcomes carry the file count and total byte size
the returned message reports (message formatting of the MB figure and
the 20-entry sample is elided). -/
inductive ClearOutcome where
  | notFoundError
  | noCache
  | preview (file_count : Nat) (total_size : Nat)
  | deleted (file_count : Nat) (total_size : Nat)
deriving DecidableEq

/-- clear_pdf_cache (server.py lines 740-798).  sz gives the on-disk byte
size of each file (f.stat().st_size); every file in the model's flat
cache directory is a regular file. -/
def clear_pdf_cache (sz : FileData → Nat) (pdfExists : Bool) (cd : CacheDir)
    (dry_run : Bool) : CacheDir × ClearOutcome :=
  if ¬ pdfExists then (cd, ClearOutcome.notFoundError)
  else match cd with
  | none => (none, ClearOutcome.noCache)
  | some files =>
    let file_count := files.length
    let total_size := (files.map (fun kv => sz kv.2)).sum
    if dry_run then
      (some files, ClearOutcome.preview file_count total_size)
    else
      (none, ClearOutcome.deleted file_count total_size)

/-! Helper lemmas. -/

theorem digitChar10_toNat (d : Nat) (h : d < 10) : (digitChar10 d).toNat = 48 + d := by
  unfold digitChar10
  interval_cases d <;> decide

/-- Value of a little-endian digit list (left inverse of natDigitsRev). -/
def decodeRevDigits : List Char → Nat
  | [] => 0
  | c :: rest => (c.toNat - 48) + 10 * decodeRevDigits rest

theorem decodeRev_natDigitsRevCore :
    ∀ fuel n, n ≤ fuel → decodeRevDigits (natDigitsRevCore fuel n) = n := by
  intro fuel
  induction fuel with
  | zero =>
    intro n hn
    interval_cases n
    rfl
  | succ f ih =>
    intro n hn
    match n with
    | 0 => rfl
    | m + 1 =>
      have hdiv : (m + 1) / 10 ≤ f := by
        have h1 : (m + 1) / 10 < m + 1 := Nat.div_lt_self (Nat.succ_pos m) (by norm_num)
        omega
      have hmod : (m + 1) % 10 < 10 := Nat.mod_lt _ (by norm_num)
      simp only [natDigitsRevCore, decodeRevDigits, ih _ hdiv, digitChar10_toNat _ hmod]
      omega

theorem decodeRev_natDigitsRev (n : Nat) : decodeRevDigits (natDigitsRev n) = n :=
  decodeRev_natDigitsRevCore n n (Nat.le_refl n)

theorem natDecimal_injective (m n : Nat) (h : natDecimal m = natDecimal n) : m = n := by
  by_cases hm : m = 0 <;> by_cases hn : n = 0
  · omega
  · exfalso
    unfold natDecimal at h
    rw [if_pos hm, if_neg hn] at h
    have h' : (['0'] : List Char) = (natDigitsRev n).reverse := congrArg String.data h
    have hrev : natDigitsRev n = ['0'] := by
      have := congrArg List.reverse h'
      simpa using this.symm
    have hz : decodeRevDigits ['0'] = 0 := by decide
    have hd := decodeRev_natDigitsRev n
    rw [hrev, hz] at hd
    omega
  · exfalso
    unfold natDecimal at h
    rw [if_neg hm, if_pos hn] at h
    have h' : (natDigitsRev m).reverse = (['0'] : List Char) := congrArg String.data h
    have hrev : natDigitsRev m = ['0'] := by
      have := congrArg List.reverse h'
      simpa using this
    have hz : decodeRevDigits ['0'] = 0 := by decide
    have hd := decodeRev_natDigitsRev m
    rw [hrev, hz] at hd
    omega
  · unfold natDecimal at h
    rw [if_neg hm, if_neg hn] at h
    have h' : (natDigitsRev m).reverse = (natDigitsRev n).reverse := congrArg String.data h
    have hrev : natDigitsRev m = natDigitsRev n := List.reverse_injective h'
    have h1 := decodeRev_natDigitsRev m
    rw [hrev, decodeRev_natDigitsRev n] at h1
    omega

theorem string_data_append (s t : String) : (s ++ t).data = s.data ++ t.data := by
  cases s
  cases t
  rfl

theorem string_append_cancel_left (s t u : String) (h : s ++ t = s ++ u) : t = u := by
  have hd : s.data ++ t.data = s.data ++ u.data := by
    rw [← string_data_append, ← string_data_append, h]
  have h2 := List.append_cancel_left hd
  cases t
  cases u
  exact congrArg String.mk h2

theorem string_append_cancel_right (s t u : String) (h : t ++ s = u ++ s) : t = u := by
  have hd : t.data ++ s.data = u.data ++ s.data := by
    rw [← string_data_append, ← string_data_append, h]
  have h2 := List.append_cancel_right hd
  cases t
  cases u
  exact congrArg String.mk h2

theorem renderArtifactName_dpi_injective (pg d1 d2 : Nat)
    (h : renderArtifactName pg d1 = renderArtifactName pg d2) : d1 = d2 := by
  unfold renderArtifactName at h
  have h1 := string_append_cancel_right _ _ _ h
  have h2 := string_append_cancel_left _ _ _ h1
  exact natDecimal_injective _ _ h2

theorem pageArtifactName_ne_renderArtifactName (n dpi : Nat) :
    pageArtifactName n ≠ renderArtifactName n dpi := by
  intro h
  unfold pageArtifactName renderArtifactName at h
  have hdata := congrArg String.data h
  simp only [string_data_append, List.append_assoc] at hdata
  have h2 := List.append_cancel_left (List.append_cancel_left hdata)
  have h3 : ('.' : Char) = '_' := by
    have := congrArg (fun l => l.headD ' ') h2
    simp at this
  exact absurd h3 (by decide)

theorem lookupFile_filter_ne (files : List (String × FileData)) (name other : String)
    (h : other ≠ name) :
    lookupFile (files.filter (fun kv => kv.1 != name)) other = lookupFile files other := by
  induction files with
  | nil => rfl
  | cons kv rest ih =>
    by_cases hk : kv.1 = name
    · have : (kv.1 != name) = false := by simp [hk]
      simp only [List.filter, this, ih]
      rw [lookupFile]
      rw [if_neg (by rw [hk]; exact fun hh => h hh.symm)]
    · have : (kv.1 != name) = true := by simp [hk]
      simp only [List.filter, this]
      cases kv with
      | mk k v =>
        rw [lookupFile, lookupFile, ih]

theorem readFile_writeFile_self (cd : CacheDir) (name : String) (d : FileData) :
    readFile (writeFile cd name d) name = some d := by
  cases cd with
  | none => simp [writeFile, readFile, lookupFile]
  | some files => simp [writeFile, readFile, lookupFile]

theorem readFile_writeFile_ne (cd : CacheDir) (name other : String) (d : FileData)
    (h : other ≠ name) : readFile (writeFile cd name d) other = readFile cd other := by
  cases cd with
  | none =>
    simp only [writeFile, readFile, lookupFile]
    rw [if_neg (fun hh => h hh.symm)]
  | some files =>
    simp only [writeFile, readFile, lookupFile]
    rw [if_neg (fun hh => h hh.symm), lookupFile_filter_ne files name other h]

theorem writeFile_isSome (cd : CacheDir) (name : String) (d : FileData) :
    (writeFile cd name d).isSome = true := by
  cases cd <;> rfl


/-- A valid verdict means the metadata file exists, parses to a record,
and its stored values match the current stat. -/
theorem is_cache_valid_iff (pdfStat : Option Stat) (cd : CacheDir) :
    is_cache_valid pdfStat cd = Except.ok true ↔
      ∃ pth created st, pdfStat = some st ∧
        readFile cd CACHE_META_FILE =
          some (FileData.metaJson pth (some st.mtime) (some st.size) created) := by
  unfold is_cache_valid
  cases hr : readFile cd CACHE_META_FILE with
  | none => simp
  | some fd =>
    cases fd with
    | jsonNonDict => simp
    | png p q => simp
    | garbage => simp
    | invalidUtf8 => simp
    | unreadable => simp
    | metaJson pth m s created =>
      cases pdfStat with
      | none => simp
      | some st =>
        constructor
        · intro h
          dsimp only at h
          by_cases h1 : m = some st.mtime
          · by_cases h2 : s = some st.size
            · exact ⟨pth, created, st, rfl, by rw [h1, h2]⟩
            · rw [if_neg (not_not_intro h1), if_pos h2] at h
              exact absurd h (by simp)
          · rw [if_pos h1] at h
            exact absurd h (by simp)
        · rintro ⟨pth', created', st', hstat, hmeta⟩
          injection hstat with hstat'
          injection hmeta with hmeta'
          injection hmeta' with e1 e2 e3 e4
          subst hstat'
          rw [e2, e3]
          simp

/-- A cache judged valid in particular exists on disk. -/
theorem is_cache_valid_isSome (pdfStat : Option Stat) (cd : CacheDir)
    (h : is_cache_valid pdfStat cd = Except.ok true) : cd.isSome = true := by
  rcases (is_cache_valid_iff pdfStat cd).1 h with ⟨pth, created, st, hstat, hr⟩
  cases cd with
  | none => simp [readFile] at hr
  | some files => rfl

/-- An uncaught validator exception propagates out of the resolution
before any deletion, creation or write. -/
theorem get_cache_dir_raises (st : Stat) (abs_path now : String) (cd : CacheDir)
    (e : PyErr) (hv : is_cache_valid (some st) cd = Except.error e) :
    get_cache_dir st abs_path now cd = Except.error e := by
  cases cd with
  | none => exact absurd hv (by simp [is_cache_valid, readFile])
  | some files =>
    unfold get_cache_dir
    dsimp only
    rw [hv]

/-- Resolving a valid cache leaves it untouched: no deletion, no
recreation, no metadata write. -/
theorem get_cache_dir_valid (st : Stat) (abs_path now : String) (cd : CacheDir)
    (h : is_cache_valid (some st) cd = Except.ok true) :
    get_cache_dir st abs_path now cd = Except.ok cd := by
  rcases (is_cache_valid_iff (some st) cd).1 h with ⟨pth, created, st', hstat, hr⟩
  cases cd with
  | none => simp [readFile] at hr
  | some files =>
    unfold get_cache_dir
    dsimp only
    rw [h]
    dsimp only
    simp only [readFile] at hr
    simp [readFile, hr]

/-- Resolving a cache judged invalid (or absent) deletes whatever was
there and recreates the directory holding exactly one fresh metadata
file. -/
theorem get_cache_dir_invalid (st : Stat) (abs_path now : String) (cd : CacheDir)
    (h : is_cache_valid (some st) cd = Except.ok false) :
    get_cache_dir st abs_path now cd =
      Except.ok (some [(CACHE_META_FILE, freshMeta st abs_path now)]) := by
  cases cd with
  | none =>
    unfold get_cache_dir
    simp [readFile, lookupFile, save_cache_meta, writeFile]
  | some files =>
    unfold get_cache_dir
    dsimp only
    rw [h]
    simp [invalidate_cache, readFile, lookupFile, save_cache_meta, writeFile]

/-- Every resolution that returns leaves the cache valid for the stat it
saw. -/
theorem get_cache_dir_establishes_valid (st : Stat) (abs_path now : String)
    (cd cd' : CacheDir) (h : get_cache_dir st abs_path now cd = Except.ok cd') :
    is_cache_valid (some st) cd' = Except.ok true := by
  cases hv : is_cache_valid (some st) cd with
  | error e =>
    rw [get_cache_dir_raises st abs_path now cd e hv] at h
    exact Except.noConfusion h
  | ok b =>
    cases b with
    | true =>
      rw [get_cache_dir_valid st abs_path now cd hv] at h
      injection h with h'
      rw [← h']
      exact hv
    | false =>
      rw [get_cache_dir_invalid st abs_path now cd hv] at h
      injection h with h'
      rw [← h']
      exact (is_cache_valid_iff _ _).2
        ⟨abs_path, now, st, rfl, by simp [readFile, lookupFile, freshMeta]⟩

/-- Every resolution that returns makes the cache directory exist. -/
theorem get_cache_dir_isSome (st : Stat) (abs_path now : String) (cd cd' : CacheDir)
    (h : get_cache_dir st abs_path now cd = Except.ok cd') : cd'.isSome = true :=
  is_cache_valid_isSome _ _ (get_cache_dir_establishes_valid st abs_path now cd cd' h)

/-- A resolution can only raise when the cache directory already exists
(the poisoned metadata file must live somewhere). -/
theorem get_cache_dir_error_isSome (st : Stat) (abs_path now : String) (cd : CacheDir)
    (e : PyErr) (h : get_cache_dir st abs_path now cd = Except.error e) :
    cd.isSome = true := by
  cases cd with
  | none =>
    exact absurd h (by simp [get_cache_dir, readFile, lookupFile, save_cache_meta, writeFile])
  | some files => rfl

/-! Claim theorems. -/

/-- C1: the delete-and-recreate-iff-invalid contract is the code's own
documented intent, but the code violates it at a metadata file of
invalid UTF-8 bytes: _is_cache_valid raises UnicodeDecodeError, which
the except clause at server.py line 100 does not catch, so
_get_cache_dir propagates the exception without deleting or recreating
anything.  On metadata the validator can read the contract holds: a
stale record is wiped and the directory recreated with exactly one
fresh metadata file, a matching record is returned untouched, and a
second resolution under an unchanged stat changes nothing. -/
theorem cache_resolution_raises_instead_of_recreating :
    get_cache_dir ⟨5, 100⟩ "p" "t" (some [(CACHE_META_FILE, FileData.invalidUtf8)]) =
      Except.error PyErr.unicodeDecodeError ∧
    get_cache_dir ⟨5, 100⟩ "p" "t"
        (some [(CACHE_META_FILE, FileData.metaJson "p" (some 4) (some 90) "t0"),
          (allArtifactName 0, FileData.png 0 150)]) =
      Except.ok (some [(CACHE_META_FILE, freshMeta ⟨5, 100⟩ "p" "t")]) ∧
    get_cache_dir ⟨5, 100⟩ "q" "u" (some [(CACHE_META_FILE, freshMeta ⟨5, 100⟩ "p" "t")]) =
      Except.ok (some [(CACHE_META_FILE, freshMeta ⟨5, 100⟩ "p" "t")]) := by
  refine ⟨?_, ?_, ?_⟩ <;> rfl

/-- C2: the fail-closed, never-raising contract is the code's own
documented intent (the except-clause comment at server.py line 101 says
a corrupted or unreadable metadata file means an invalid cache), but
the except clause catches only (json.JSONDecodeError, KeyError,
OSError): metadata of invalid UTF-8 bytes raises UnicodeDecodeError out
of json.load's text-mode read, and a parsable non-dict JSON value
raises AttributeError at meta.get, both uncaught.  On every other input
the contract holds: absent, JSONDecodeError-garbage and
OSError-unreadable metadata yield invalid without raising, and a parsed
record validates exactly when its stored pdf_mtime and pdf_size match
the current stat. -/
theorem cache_validator_raises_instead_of_fail_closed :
    is_cache_valid (some ⟨7, 9⟩) (some [(CACHE_META_FILE, FileData.invalidUtf8)]) =
      Except.error PyErr.unicodeDecodeError ∧
    is_cache_valid (some ⟨7, 9⟩) (some [(CACHE_META_FILE, FileData.jsonNonDict)]) =
      Except.error PyErr.attributeError ∧
    is_cache_valid (some ⟨7, 9⟩) (some []) = Except.ok false ∧
    is_cache_valid (some ⟨7, 9⟩) (some [(CACHE_META_FILE, FileData.garbage)]) =
      Except.ok false ∧
    is_cache_valid (some ⟨7, 9⟩) (some [(CACHE_META_FILE, FileData.unreadable)]) =
      Except.ok false ∧
    is_cache_valid (some ⟨7, 9⟩)
        (some [(CACHE_META_FILE, FileData.metaJson "a.pdf" (some 7) (some 9) "t0")]) =
      Except.ok true ∧
    is_cache_valid (some ⟨7, 9⟩)
        (some [(CACHE_META_FILE, FileData.metaJson "a.pdf" (some 8) (some 9) "t0")]) =
      Except.ok false := by
  refine ⟨?_, ?_, ?_, ?_, ?_, ?_, ?_⟩ <;> rfl

/-- C3 counterexample: a caller-supplied end = 0 is falsy in Python, so
the code treats it as absent and returns the full range (0, 10), while
the claimed formula max(startIndex+1, min(end, totalPages)) would give
(0, 1); the claim as stated is false at totalPages = 10, start absent,
end = 0. -/
theorem range_resolver_claimed_formula_cex :
    resolveRange 10 none (some 0) = (0, 10) ∧
    resolveRangeClaimed 10 none (some 0) = (0, 1) ∧
    resolveRange 10 none (some 0) ≠ resolveRangeClaimed 10 none (some 0) := by
  decide

/-- C3 (amended): for every totalPages ≥ 1 the resolver computes exactly
the claimed startIndex and endIndexExclusive formulas whenever the
supplied end is not 0; a supplied end = 0 (falsy) is treated as absent
and defaults to totalPages; the resolved range is always non-empty, and
the three claimed examples hold. -/
theorem range_resolver_amended (tp : Int) (sp ep : Option Int) (h : 1 ≤ tp) :
    (ep ≠ some 0 → resolveRange tp sp ep = resolveRangeClaimed tp sp ep) ∧
    resolveRange tp sp (some 0) = resolveRangeClaimed tp sp none ∧
    (resolveRange tp sp ep).1 < (resolveRange tp sp ep).2 ∧
    resolveRange 10 none none = (0, 10) ∧
    resolveRange 10 (some 5) (some 3) = (4, 5) ∧
    resolveRange 10 (some 0) (some 999) = (0, 10) := by
  refine ⟨?_, ?_, ?_, by decide, by decide, by decide⟩
  · intro hep
    unfold resolveRange resolveRangeClaimed pyTruthyOpt
    rcases sp with _ | s <;> rcases ep with _ | v
    · dsimp only [Option.getD]
      simp only [Prod.mk.injEq]
      try split_ifs
      all_goals try simp only [bne_iff_ne, ne_eq, not_not, Bool.false_eq_true] at *
      all_goals try trivial
    · have hv : v ≠ 0 := fun h0 => hep (by rw [h0])
      dsimp only [Option.getD]
      simp only [Prod.mk.injEq]
      try split_ifs
      all_goals try simp only [bne_iff_ne, ne_eq, not_not, Bool.false_eq_true] at *
      all_goals try trivial
    · dsimp only [Option.getD]
      simp only [Prod.mk.injEq]
      try split_ifs
      all_goals try simp only [bne_iff_ne, ne_eq, not_not, Bool.false_eq_true] at *
      all_goals try trivial
      all_goals omega
    · have hv : v ≠ 0 := fun h0 => hep (by rw [h0])
      dsimp only [Option.getD]
      simp only [Prod.mk.injEq]
      try split_ifs
      all_goals try simp only [bne_iff_ne, ne_eq, not_not, Bool.false_eq_true] at *
      all_goals try trivial
      all_goals omega
  · unfold resolveRange resolveRangeClaimed pyTruthyOpt
    rcases sp with _ | s <;> dsimp only [Option.getD] <;> simp only [Prod.mk.injEq] <;>
      try split_ifs
    all_goals try simp only [bne_iff_ne, ne_eq, not_not, Bool.false_eq_true] at *
    all_goals try trivial
    all_goals omega
  · unfold resolveRange pyTruthyOpt
    rcases sp with _ | s <;> rcases ep with _ | v <;> dsimp only [Option.getD] <;>
      try split_ifs
    all_goals try simp only [bne_iff_ne, ne_eq, not_not, Bool.false_eq_true] at *
    all_goals omega

/-- C3 witness: the amended equivalence at totalPages = 10, start = 2,
end = 4. -/
theorem range_resolver_amended_witness :
    resolveRange 10 (some 2) (some 4) = resolveRangeClaimed 10 (some 2) (some 4) ∧
    resolveRange 10 (some 2) (some 0) = resolveRangeClaimed 10 (some 2) none := by
  have h := range_resolver_amended 10 (some 2) (some 4) (by decide)
  exact ⟨h.1 (by decide), h.2.1⟩

/-- C9: immediately after a cache resolution returns for an existing
document whose stat st is unchanged during the call, the metadata file
exists in the resulting directory and the cache validator accepts it —
the resolution establishes the validity invariant on every returning
path (fresh create, revalidation, and post-invalidation recreate); an
uncaught validator exception never reaches a return. -/
theorem cache_resolution_establishes_validity (st : Stat) (p t : String) (cd cd' : CacheDir)
    (h : get_cache_dir st p t cd = Except.ok cd') :
    is_cache_valid (some st) cd' = Except.ok true ∧
    (readFile cd' CACHE_META_FILE).isSome = true := by
  refine ⟨get_cache_dir_establishes_valid st p t cd cd' h, ?_⟩
  rcases (is_cache_valid_iff _ _).1 (get_cache_dir_establishes_valid st p t cd cd' h) with
    ⟨pth, created, st', hstat, hr⟩
  rw [hr]
  rfl

/-- C9 witness: resolving an existing but empty cache directory returns
a directory that the validator accepts and whose metadata file exists. -/
theorem cache_resolution_establishes_validity_witness :
    is_cache_valid (some ⟨5, 100⟩)
      (some [(CACHE_META_FILE, freshMeta ⟨5, 100⟩ "p" "t")]) = Except.ok true ∧
    (readFile (some [(CACHE_META_FILE, freshMeta ⟨5, 100⟩ "p" "t")])
      CACHE_META_FILE).isSome = true :=
  cache_resolution_establishes_validity ⟨5, 100⟩ "p" "t" (some [])
    (some [(CACHE_META_FILE, freshMeta ⟨5, 100⟩ "p" "t")]) (by rfl)

/-- C4: the renderer maps (page, dpi) deterministically to one artifact
name; an existing artifact is returned by name with no write at all; a
repeated identical render is a no-op; a missing artifact is freshly
written; and a render of the same page at a different dpi targets a
distinct name and never overwrites the prior-resolution artifact. -/
theorem renderer_at_most_once_per_key (cd : CacheDir) (pg dpi dpi' : Nat) :
    (renderCore cd pg dpi).2.1 = renderArtifactName pg dpi ∧
    (∀ d, readFile cd (renderArtifactName pg dpi) = some d →
      (renderCore cd pg dpi).1 = cd) ∧
    (renderCore (renderCore cd pg dpi).1 pg dpi).1 = (renderCore cd pg dpi).1 ∧
    (readFile cd (renderArtifactName pg dpi) = none →
      readFile (renderCore cd pg dpi).1 (renderArtifactName pg dpi) =
        some (FileData.png (pg - 1) dpi)) ∧
    (dpi ≠ dpi' →
      renderArtifactName pg dpi ≠ renderArtifactName pg dpi' ∧
      readFile (renderCore cd pg dpi').1 (renderArtifactName pg dpi) =
        readFile cd (renderArtifactName pg dpi)) := by
  have hsplit : ∀ (cd1 : CacheDir) (q e : Nat),
      renderCore cd1 q e =
        if readFile cd1 (renderArtifactName q e) = none then
          (writeFile cd1 (renderArtifactName q e) (FileData.png (q - 1) e),
            renderArtifactName q e, RenderDims.fresh (q - 1) e)
        else (cd1, renderArtifactName q e, RenderDims.cacheHit) :=
    fun _ _ _ => rfl
  have hnowrite : ∀ cd1 : CacheDir, readFile cd1 (renderArtifactName pg dpi) ≠ none →
      (renderCore cd1 pg dpi).1 = cd1 := by
    intro cd1 hne
    rw [hsplit, if_neg hne]
  refine ⟨?_, ?_, ?_, ?_, ?_⟩
  · rw [hsplit]
    by_cases hc : readFile cd (renderArtifactName pg dpi) = none
    · rw [if_pos hc]
    · rw [if_neg hc]
  · intro d hd
    exact hnowrite cd (by rw [hd]; exact fun hh => Option.noConfusion hh)
  · by_cases hc : readFile cd (renderArtifactName pg dpi) = none
    · have h1 : (renderCore cd pg dpi).1 =
          writeFile cd (renderArtifactName pg dpi) (FileData.png (pg - 1) dpi) := by
        rw [hsplit, if_pos hc]
      rw [h1]
      refine hnowrite _ ?_
      rw [readFile_writeFile_self]
      exact fun hh => Option.noConfusion hh
    · rw [hnowrite cd hc]
      exact hnowrite cd hc
  · intro hc
    have h1 : (renderCore cd pg dpi).1 =
        writeFile cd (renderArtifactName pg dpi) (FileData.png (pg - 1) dpi) := by
      rw [hsplit, if_pos hc]
    rw [h1, readFile_writeFile_self]
  · intro hne
    have hname : renderArtifactName pg dpi ≠ renderArtifactName pg dpi' :=
      fun hh => hne (renderArtifactName_dpi_injective pg dpi dpi' hh)
    refine ⟨hname, ?_⟩
    by_cases hc' : readFile cd (renderArtifactName pg dpi') = none
    · have h1 : (renderCore cd pg dpi').1 =
          writeFile cd (renderArtifactName pg dpi') (FileData.png (pg - 1) dpi') := by
        rw [hsplit, if_pos hc']
      rw [h1, readFile_writeFile_ne cd (renderArtifactName pg dpi')
        (renderArtifactName pg dpi) (FileData.png (pg - 1) dpi') hname]
    · have h1 : (renderCore cd pg dpi').1 = cd := by
        rw [hsplit, if_neg hc']
      rw [h1]

/-- C4 witness: at page 1, an empty cache renders and stores fresh
artifacts; dpi 150 and dpi 300 use distinct names and do not disturb
each other's artifact. -/
theorem renderer_at_most_once_per_key_witness :
    renderArtifactName 1 150 ≠ renderArtifactName 1 300 ∧
    readFile (renderCore (some []) 1 300).1 (renderArtifactName 1 150) =
      readFile (some []) (renderArtifactName 1 150) ∧
    readFile (renderCore (some []) 1 150).1 (renderArtifactName 1 150) =
      some (FileData.png 0 150) := by
  have h := renderer_at_most_once_per_key (some []) 1 150 300
  exact ⟨(h.2.2.2.2 (by decide)).1, (h.2.2.2.2 (by decide)).2, h.2.2.2.1 (by decide)⟩

/-- C5: a page classifies visual exactly when the library reports at
least one embedded raster image or at least one vector drawing; in
smart mode a visual page is emitted as a header plus the rendered page
image (freshly rasterized when no cached artifact exists) and a
text-only page is emitted as a single text item with the page's
extracted text, leaving the cache untouched. -/
theorem page_classifier_and_smart_emission (doc : List PageInfo) (s : SmartState)
    (page_num : Nat) (page : PageInfo) (hpage : doc.get? page_num = some page) :
    (classifyVisual page = true ↔ 1 ≤ page.imageCount ∨ 1 ≤ page.drawingCount) ∧
    (classifyVisual page = true →
      ∃ d, (smartStep doc s page_num).res =
          s.res ++ [smartImageHeader page_num, Content.image (some d)] ∧
        (readFile s.cd (smartArtifactName page_num) = none →
          d = FileData.png page_num 150)) ∧
    (classifyVisual page = false →
      (smartStep doc s page_num).res = s.res ++ [smartTextItem page_num page] ∧
      (smartStep doc s page_num).cd = s.cd) := by
  have hstepT : ¬ ((decide (0 < page.imageCount) || decide (0 < page.drawingCount)) = true) →
      smartStep doc s page_num =
        { s with
          res := s.res ++ [smartTextItem page_num page],
          text_page_count := s.text_page_count + 1 } := by
    intro hcond
    unfold smartStep
    rw [hpage]
    dsimp only
    rw [if_neg hcond]
  have hstepV1 : (decide (0 < page.imageCount) || decide (0 < page.drawingCount)) = true →
      readFile s.cd (smartArtifactName page_num) = none →
      smartStep doc s page_num =
        { cd :=
            writeFile s.cd (smartArtifactName page_num) (FileData.png page_num 150),
          res := s.res ++ [smartImageHeader page_num,
            Content.image (readFile
              (writeFile s.cd (smartArtifactName page_num) (FileData.png page_num 150))
              (smartArtifactName page_num))],
          text_page_count := s.text_page_count,
          image_page_count := s.image_page_count + 1 } := by
    intro hcond hc
    unfold smartStep
    rw [hpage]
    dsimp only
    rw [if_pos hcond, if_pos hc]
  have hstepV2 : (decide (0 < page.imageCount) || decide (0 < page.drawingCount)) = true →
      ¬ (readFile s.cd (smartArtifactName page_num) = none) →
      smartStep doc s page_num =
        { cd := s.cd,
          res := s.res ++ [smartImageHeader page_num,
            Content.image (readFile s.cd (smartArtifactName page_num))],
          text_page_count := s.text_page_count,
          image_page_count := s.image_page_count + 1 } := by
    intro hcond hc
    unfold smartStep
    rw [hpage]
    dsimp only
    rw [if_pos hcond, if_neg hc]
  refine ⟨?_, ?_, ?_⟩
  · unfold classifyVisual
    simp [Nat.lt_iff_add_one_le]
  · intro hvis
    have hvis' : (decide (0 < page.imageCount) || decide (0 < page.drawingCount)) = true := hvis
    by_cases hc : readFile s.cd (smartArtifactName page_num) = none
    · refine ⟨FileData.png page_num 150, ?_, fun _ => rfl⟩
      rw [hstepV1 hvis' hc]
      dsimp only
      rw [readFile_writeFile_self]
    · rcases hx : readFile s.cd (smartArtifactName page_num) with _ | d0
      · exact absurd hx hc
      · refine ⟨d0, ?_, fun hno => Option.noConfusion hno⟩
        rw [hstepV2 hvis' hc]
        dsimp only
        rw [hx]
  · intro hvis
    have hvis' : ¬ ((decide (0 < page.imageCount) || decide (0 < page.drawingCount)) = true) := by
      intro hh
      rw [show (decide (0 < page.imageCount) || decide (0 < page.drawingCount)) =
        classifyVisual page from rfl] at hh
      rw [hvis] at hh
      exact Bool.noConfusion hh
    rw [hstepT hvis']
    exact ⟨rfl, rfl⟩

/-- C5 witness: a page with one image and no drawings classifies visual
and is emitted as an image rendered fresh into an empty cache; a page
with neither classifies text-only. -/
theorem page_classifier_and_smart_emission_witness :
    (classifyVisual ⟨1, 0, "x"⟩ = true ↔ 1 ≤ (1 : Nat) ∨ 1 ≤ (0 : Nat)) ∧
    (∃ d, (smartStep [PageInfo.mk 1 0 "x"] ⟨some [], [], 0, 0⟩ 0).res =
        [] ++ [smartImageHeader 0, Content.image (some d)] ∧
      (readFile (some []) (smartArtifactName 0) = none → d = FileData.png 0 150)) ∧
    ((smartStep [PageInfo.mk 0 0 "hi"] ⟨some [], [], 0, 0⟩ 0).res =
        [] ++ [smartTextItem 0 ⟨0, 0, "hi"⟩] ∧
      (smartStep [PageInfo.mk 0 0 "hi"] ⟨some [], [], 0, 0⟩ 0).cd = some []) := by
  have h1 := page_classifier_and_smart_emission [⟨1, 0, "x"⟩] ⟨some [], [], 0, 0⟩ 0
    ⟨1, 0, "x"⟩ (by decide)
  have h2 := page_classifier_and_smart_emission [⟨0, 0, "hi"⟩] ⟨some [], [], 0, 0⟩ 0
    ⟨0, 0, "hi"⟩ (by decide)
  exact ⟨h1.1, h1.2.1 (by decide), h2.2.2 (by decide)⟩

/-- C6: a 1-indexed page number outside [1, totalPages] makes both
single-page operations (read_pdf_page and render_pdf_page) return a
range error with the cache state exactly as it was: no directory
creation or invalidation and no artifact or metadata write. -/
theorem out_of_range_page_errors_without_writes (doc : List PageInfo) (st : Stat)
    (p t : String) (cd : CacheDir) (page_number : Int) (dpi : Nat)
    (h : page_number < 1 ∨ page_number > (doc.length : Int)) :
    (read_pdf_page doc st p t cd page_number).1 = cd ∧
    (∃ msg, (read_pdf_page doc st p t cd page_number).2 =
      Except.error (OpError.valueError msg)) ∧
    (render_pdf_page doc st p t cd page_number dpi).1 = cd ∧
    (∃ msg, (render_pdf_page doc st p t cd page_number dpi).2 =
      Except.error (OpError.valueError msg)) := by
  unfold read_pdf_page render_pdf_page
  rw [if_pos h, if_pos h]
  exact ⟨rfl, ⟨_, rfl⟩, rfl, ⟨_, rfl⟩⟩

/-- C6 witness: page 2 of a one-page document errors in both operations
and leaves an absent cache directory absent. -/
theorem out_of_range_page_errors_without_writes_witness :
    (read_pdf_page [⟨0, 0, "h"⟩] ⟨1, 2⟩ "p" "t" none 2).1 = none ∧
    (∃ msg, (read_pdf_page [⟨0, 0, "h"⟩] ⟨1, 2⟩ "p" "t" none 2).2 =
      Except.error (OpError.valueError msg)) ∧
    (render_pdf_page [⟨0, 0, "h"⟩] ⟨1, 2⟩ "p" "t" none 2 150).1 = none ∧
    (∃ msg, (render_pdf_page [⟨0, 0, "h"⟩] ⟨1, 2⟩ "p" "t" none 2 150).2 =
      Except.error (OpError.valueError msg)) :=
  out_of_range_page_errors_without_writes [⟨0, 0, "h"⟩] ⟨1, 2⟩ "p" "t" none 2 150
    (by decide)

theorem renderCore_fst_isSome (cd : CacheDir) (q e : Nat) (h : cd.isSome = true) :
    ((renderCore cd q e).1).isSome = true := by
  unfold renderCore
  dsimp only
  by_cases hc : readFile cd (renderArtifactName q e) = none
  · rw [if_pos hc]
    exact writeFile_isSome _ _ _
  · rw [if_neg hc]
    exact h

theorem allStep_cd_isSome (s : AllState) (k : Nat) (h : s.cd.isSome = true) :
    ((allStep s k).cd).isSome = true := by
  unfold allStep
  dsimp only
  by_cases hc : readFile s.cd (allArtifactName k) = none
  · rw [if_pos hc]
    exact writeFile_isSome _ _ _
  · rw [if_neg hc]
    exact h

theorem foldl_allStep_isSome (l : List Nat) (s : AllState) (h : s.cd.isSome = true) :
    ((l.foldl allStep s).cd).isSome = true := by
  induction l generalizing s with
  | nil => exact h
  | cons k rest ih => exact ih _ (allStep_cd_isSome s k h)

theorem smartStep_cd_isSome (doc : List PageInfo) (s : SmartState) (k : Nat)
    (h : s.cd.isSome = true) : ((smartStep doc s k).cd).isSome = true := by
  unfold smartStep
  cases doc.get? k with
  | none => exact h
  | some page =>
    dsimp only
    by_cases hcond : (decide (0 < page.imageCount) || decide (0 < page.drawingCount)) = true
    · rw [if_pos hcond]
      dsimp only
      by_cases hc : readFile s.cd (smartArtifactName k) = none
      · rw [if_pos hc]
        exact writeFile_isSome _ _ _
      · rw [if_neg hc]
        exact h
    · rw [if_neg hcond]
      exact h

theorem foldl_smartStep_isSome (doc : List PageInfo) (l : List Nat) (s : SmartState)
    (h : s.cd.isSome = true) : ((l.foldl (smartStep doc) s).cd).isSome = true := by
  induction l generalizing s with
  | nil => exact h
  | cons k rest ih => exact ih _ (smartStep_cd_isSome doc s k h)

/-- C7 counterexample: getText and getDocumentSummary on an existing
one-page document with no cache complete successfully yet create no
cache directory, so not every public operation obtains one. -/
theorem every_public_op_creates_cache_cex :
    ((read_pdf_text [⟨0, 0, "hello"⟩] "d.pdf" none none none).1).isSome = false ∧
    ((read_pdf_info [⟨0, 0, "hello"⟩] ⟨none, none, none, none, none⟩ "d.pdf" none).1).isSome
      = false := by
  constructor <;> rfl

/-- C7 (amended): the four page-rendering operations (read_pdf_page,
read_pdf_all, read_pdf_smart, render_pdf_page) obtain a cache directory
via the cache store before their per-page processing, so whenever one
of them completes successfully the cache directory exists on disk
afterwards; read_pdf_text and read_pdf_info never touch the cache state
at all. -/
theorem render_ops_create_cache_text_ops_do_not
    (doc : List PageInfo) (meta : PdfMeta) (st : Stat) (p t name : String)
    (cd : CacheDir) (pn : Int) (dpi : Nat) (sp ep : Option Int) :
    (∀ out, (read_pdf_page doc st p t cd pn).2 = Except.ok out →
      ((read_pdf_page doc st p t cd pn).1).isSome = true) ∧
    ((read_pdf_all doc st p t name cd sp ep).1).isSome = true ∧
    ((read_pdf_smart doc st p t name cd sp ep).1).isSome = true ∧
    (∀ outr, (render_pdf_page doc st p t cd pn dpi).2 = Except.ok outr →
      ((render_pdf_page doc st p t cd pn dpi).1).isSome = true) ∧
    (read_pdf_text doc name cd sp ep).1 = cd ∧
    (read_pdf_info doc meta name cd).1 = cd := by
  refine ⟨?_, ?_, ?_, ?_, ?_, ?_⟩
  · intro out hok
    unfold read_pdf_page at hok ⊢
    by_cases hrange : pn < 1 ∨ pn > (doc.length : Int)
    · rw [if_pos hrange] at hok
      exact Except.noConfusion hok
    · rw [if_neg hrange] at hok ⊢
      cases hgc : get_cache_dir st p t cd with
      | error e =>
        rw [hgc] at hok
        exact Except.noConfusion hok
      | ok cd1 =>
        dsimp only
        by_cases hc : readFile cd1 (pageArtifactName pn.toNat) = none
        · rw [if_pos hc]
          exact writeFile_isSome _ _ _
        · rw [if_neg hc]
          exact get_cache_dir_isSome st p t cd cd1 hgc
  · unfold read_pdf_all
    cases hgc : get_cache_dir st p t cd with
    | error e =>
      dsimp only
      exact get_cache_dir_error_isSome st p t cd e hgc
    | ok cd1 =>
      rcases hres : resolveRange (doc.length : Int) sp ep with ⟨start, e⟩
      dsimp only
      exact foldl_allStep_isSome _ _ (get_cache_dir_isSome st p t cd cd1 hgc)
  · unfold read_pdf_smart
    cases hgc : get_cache_dir st p t cd with
    | error e =>
      dsimp only
      exact get_cache_dir_error_isSome st p t cd e hgc
    | ok cd1 =>
      rcases hres : resolveRange (doc.length : Int) sp ep with ⟨start, e⟩
      dsimp only
      exact foldl_smartStep_isSome doc _ _ (get_cache_dir_isSome st p t cd cd1 hgc)
  · intro outr hok
    unfold render_pdf_page at hok ⊢
    by_cases hrange : pn < 1 ∨ pn > (doc.length : Int)
    · rw [if_pos hrange] at hok
      exact Except.noConfusion hok
    · rw [if_neg hrange] at hok ⊢
      cases hgc : get_cache_dir st p t cd with
      | error e =>
        rw [hgc] at hok
        exact Except.noConfusion hok
      | ok cd1 =>
        dsimp only
        exact renderCore_fst_isSome _ _ _ (get_cache_dir_isSome st p t cd cd1 hgc)
  · unfold read_pdf_text
    rcases hres : resolveRange (doc.length : Int) sp ep with ⟨start, e⟩
    rfl
  · rfl

/-- C7 (amended) witness: read_pdf_page on page 1 of a one-page document
succeeds and the cache directory exists afterwards; read_pdf_text on no
cache leaves no cache. -/
theorem render_ops_create_cache_text_ops_do_not_witness :
    ((read_pdf_page [⟨0, 0, "h"⟩] ⟨1, 2⟩ "p" "t" none 1).1).isSome = true ∧
    (read_pdf_text [⟨0, 0, "h"⟩] "d.pdf" none none none).1 = none := by
  have h := render_ops_create_cache_text_ops_do_not [⟨0, 0, "h"⟩]
    ⟨none, none, none, none, none⟩ ⟨1, 2⟩ "p" "t" "d.pdf" none 1 150 none none
  exact ⟨h.1 _ (by rfl), h.2.2.2.2.1⟩

/-- C8: a dry-run clear of an existing document's cache deletes nothing
and leaves the cache directory unchanged, and when the cache directory
exists its reported file count and total byte size equal exactly what a
subsequent real clear (with the cache unchanged in between) reports as
deleted; the real clear then removes the directory. -/
theorem clear_cache_dry_run_matches_real (sz : FileData → Nat) (cd : CacheDir) :
    (clear_pdf_cache sz true cd true).1 = cd ∧
    (∀ files, cd = some files →
      ∃ fc ts,
        (clear_pdf_cache sz true cd true).2 = ClearOutcome.preview fc ts ∧
        (clear_pdf_cache sz true ((clear_pdf_cache sz true cd true).1) false).2 =
          ClearOutcome.deleted fc ts ∧
        (clear_pdf_cache sz true ((clear_pdf_cache sz true cd true).1) false).1 = none) := by
  constructor
  · cases cd <;> rfl
  · rintro files rfl
    refine ⟨files.length, (files.map (fun kv => sz kv.2)).sum, ?_, ?_, ?_⟩ <;> rfl

/-- C8 witness: a one-file cache previews (1, 7) under dry-run and a
subsequent real clear deletes exactly (1, 7) and removes the directory. -/
theorem clear_cache_dry_run_matches_real_witness :
    (clear_pdf_cache (fun _ => 7) true (some [(CACHE_META_FILE, FileData.garbage)]) true).1 =
      some [(CACHE_META_FILE, FileData.garbage)] ∧
    (∃ fc ts,
      (clear_pdf_cache (fun _ => 7) true (some [(CACHE_META_FILE, FileData.garbage)]) true).2 =
        ClearOutcome.preview fc ts ∧
      (clear_pdf_cache (fun _ => 7) true
          ((clear_pdf_cache (fun _ => 7) true
            (some [(CACHE_META_FILE, FileData.garbage)]) true).1) false).2 =
        ClearOutcome.deleted fc ts ∧
      (clear_pdf_cache (fun _ => 7) true
          ((clear_pdf_cache (fun _ => 7) true
            (some [(CACHE_META_FILE, FileData.garbage)]) true).1) false).1 = none) := by
  have h := clear_cache_dry_run_matches_real (fun _ => 7)
    (some [(CACHE_META_FILE, FileData.garbage)])
  exact ⟨h.1, h.2 _ rfl⟩

/-- C10: the three default-resolution operations derive the same artifact
name page_NNN.png from the 1-indexed page number at the fixed 150 DPI,
so an artifact stored by one is reused (no write, same bytes served) by
the others; render_pdf_page at dpi = 150 instead uses the disjoint name
page_NNN_150dpi.png, so even with the default artifact cached it
renders the page again and stores a second copy under the dpi name. -/
theorem default_artifact_sharing_and_render_disjointness (k : Nat) :
    pageArtifactName (k + 1) = allArtifactName k ∧
    smartArtifactName k = allArtifactName k ∧
    pageArtifactName (k + 1) ≠ renderArtifactName (k + 1) 150 ∧
    (∀ (doc : List PageInfo) (st : Stat) (p t : String) (cd : CacheDir) (d : FileData),
      is_cache_valid (some st) cd = Except.ok true →
      readFile cd (allArtifactName k) = some d →
      (((k : Int) + 1 ≤ (doc.length : Int) →
        (read_pdf_page doc st p t cd ((k : Int) + 1)).1 = cd ∧
        (read_pdf_page doc st p t cd ((k : Int) + 1)).2 =
          Except.ok [Content.text ("📖 페이지 " ++ toString ((k : Int) + 1) ++ " / " ++
            natDecimal doc.length ++ "\n"), Content.image (some d)]) ∧
      (∀ s : AllState, s.cd = cd → (allStep s k).cd = cd) ∧
      (∀ page : PageInfo, doc.get? k = some page → classifyVisual page = true →
        ∀ s : SmartState, s.cd = cd → (smartStep doc s k).cd = cd))) ∧
    (∀ (doc : List PageInfo) (st : Stat) (p t : String) (cd : CacheDir),
      is_cache_valid (some st) cd = Except.ok true →
      readFile cd (renderArtifactName (k + 1) 150) = none →
      (k : Int) + 1 ≤ (doc.length : Int) →
      readFile (render_pdf_page doc st p t cd ((k : Int) + 1) 150).1
        (renderArtifactName (k + 1) 150) = some (FileData.png k 150)) := by
  refine ⟨rfl, rfl, pageArtifactName_ne_renderArtifactName (k + 1) 150, ?_, ?_⟩
  · intro doc st p t cd d hval hart
    have hne : ¬ readFile cd (allArtifactName k) = none := by
      rw [hart]
      exact fun hh => Option.noConfusion hh
    refine ⟨?_, ?_, ?_⟩
    · intro hlen
      have hrange : ¬ ((k : Int) + 1 < 1 ∨ (k : Int) + 1 > (doc.length : Int)) := by
        push_neg
        constructor <;> omega
      unfold read_pdf_page
      rw [if_neg hrange, get_cache_dir_valid st p t cd hval]
      dsimp only
      have htn : ((k : Int) + 1).toNat = k + 1 := by omega
      rw [htn]
      rw [show pageArtifactName (k + 1) = allArtifactName k from rfl]
      rw [if_neg hne, hart]
      exact ⟨rfl, rfl⟩
    · intro s hs
      unfold allStep
      dsimp only
      rw [hs, if_neg hne]
    · intro page hpage hvis s hs
      have hvis' : (decide (0 < page.imageCount) || decide (0 < page.drawingCount)) = true :=
        hvis
      unfold smartStep
      rw [hpage]
      dsimp only
      rw [if_pos hvis']
      dsimp only
      rw [show smartArtifactName k = allArtifactName k from rfl, hs, if_neg hne]
  · intro doc st p t cd hval hnone hlen
    have hrange : ¬ ((k : Int) + 1 < 1 ∨ (k : Int) + 1 > (doc.length : Int)) := by
      push_neg
      constructor <;> omega
    unfold render_pdf_page
    rw [if_neg hrange, get_cache_dir_valid st p t cd hval]
    dsimp only
    have htn : ((k : Int) + 1).toNat = k + 1 := by omega
    rw [htn]
    have hsplit : renderCore cd (k + 1) 150 =
        (writeFile cd (renderArtifactName (k + 1) 150) (FileData.png k 150),
          renderArtifactName (k + 1) 150, RenderDims.fresh k 150) := by
      unfold renderCore
      dsimp only
      rw [if_pos hnone]
      rfl
    rw [hsplit]
    exact readFile_writeFile_self cd _ _

/-- C10 witness: with a valid cache already holding the default artifact
for page 1, read_pdf_page reuses it without writing, while
render_pdf_page at dpi 150 stores a second copy under the dpi name. -/
theorem default_artifact_sharing_and_render_disjointness_witness :
    pageArtifactName 1 = allArtifactName 0 ∧
    (read_pdf_page [⟨0, 0, "h"⟩] ⟨1, 2⟩ "p" "t"
        (some [(CACHE_META_FILE, freshMeta ⟨1, 2⟩ "p" "t"),
          (allArtifactName 0, FileData.png 0 150)]) 1).1 =
      some [(CACHE_META_FILE, freshMeta ⟨1, 2⟩ "p" "t"),
        (allArtifactName 0, FileData.png 0 150)] ∧
    readFile (render_pdf_page [⟨0, 0, "h"⟩] ⟨1, 2⟩ "p" "t"
        (some [(CACHE_META_FILE, freshMeta ⟨1, 2⟩ "p" "t"),
          (allArtifactName 0, FileData.png 0 150)]) 1 150).1
      (renderArtifactName 1 150) = some (FileData.png 0 150) := by
  have h := default_artifact_sharing_and_render_disjointness 0
  have h4 := h.2.2.2.1 [⟨0, 0, "h"⟩] ⟨1, 2⟩ "p" "t"
    (some [(CACHE_META_FILE, freshMeta ⟨1, 2⟩ "p" "t"),
      (allArtifactName 0, FileData.png 0 150)]) (FileData.png 0 150)
    (by rfl) (by decide)
  have h5 := h.2.2.2.2 [⟨0, 0, "h"⟩] ⟨1, 2⟩ "p" "t"
    (some [(CACHE_META_FILE, freshMeta ⟨1, 2⟩ "p" "t"),
      (allArtifactName 0, FileData.png 0 150)])
    (by rfl) (by decide) (by decide)
  exact ⟨h.1, (h4.1 (by decide)).1, h5⟩
